import Mathlib

/-!
Shallow embedding of the a2a-agent-client-sample repository
(agent executor from README.md, transport client from src/client.ts),
with theorems settling the frozen specification claims.

Modelling conventions:
* JS strings are `String`; `text.toLowerCase()` is modelled per character
  (`Char.toLower`), which agrees with JS on the ASCII inputs involved.
* JS numbers produced by the calculation evaluator are modelled by `JNum`:
  an unnormalized exact fraction for finite values, plus one marker for the
  non-finite results (Infinity / NaN) that JS division by zero produces.
* The event bus is modelled by the list of events published, in publication
  order; the push-notification background continuation publishes after all
  synchronous events (the code suspends it on a 10 s timer and the process
  is single-threaded).
* Metadata objects are modelled with the keys the claims inspect
  (`creditsUsed`, `operationType`, `errorType`, `completed`); the remaining
  keys (`planId`, `costDescription`, `expression`, ...) are elided.
-/

-- ===========================================================================
-- String helpers (JS primitives used by the source)
-- ===========================================================================

/-- JS `text.toLowerCase()` modelled per character (exact on ASCII). -/
def lowerStr (s : String) : String := ⟨s.data.map Char.toLower⟩

/-- Does the first character list occur at the head of the second one? -/
def startsWithChars : List Char → List Char → Bool
  | [], _ => true
  | _ :: _, [] => false
  | p :: ps, c :: cs => p == c && startsWithChars ps cs

/-- Does the first character list occur contiguously inside the second one? -/
def hasSubChars (pat : List Char) : List Char → Bool
  | [] => startsWithChars pat []
  | l@(_ :: tl) => startsWithChars pat l || hasSubChars pat tl

/-- JS `hay.includes(pat)`: `pat` occurs as a contiguous substring of `hay`. -/
def strIncludes (hay pat : String) : Bool := hasSubChars pat.data hay.data

-- ===========================================================================
-- Intent classifier (README.md, content detection methods, lines 661-727)
-- ===========================================================================

/-- Greeting keyword list of `Executor.isGreeting` (README.md:662-669). -/
def greetingWords : List String :=
  ["hello", "hi", "hey", "good morning", "good afternoon", "good evening"]

/-- `Executor.isGreeting` (README.md:661-671). -/
def isGreeting (text : String) : Bool :=
  greetingWords.any (fun greeting => strIncludes (lowerStr text) greeting)

/-- Math keyword list of `Executor.isCalculation` (README.md:677-684). -/
def mathKeywords : List String :=
  ["calculate", "math", "compute", "solve", "what is", "="]

/-- Arithmetic operator character class of the regex `[+\-*Slash()]` in
`Executor.isCalculation` (README.md:689). -/
def operatorChars : List Char := ['+', '-', '*', '/', '(', ')']

/-- `Executor.isCalculation` (README.md:676-691). -/
def isCalculation (text : String) : Bool :=
  let hasMathKeywords :=
    mathKeywords.any (fun keyword => strIncludes (lowerStr text) keyword)
  let hasNumbers := text.data.any Char.isDigit
  let hasOperators := text.data.any (fun c => operatorChars.contains c)
  hasMathKeywords || (hasNumbers && hasOperators)

/-- `Executor.isWeatherRequest` (README.md:696-698). -/
def isWeatherRequest (text : String) : Bool :=
  strIncludes (lowerStr text) "weather"

/-- Translation keyword list of `Executor.isTranslationRequest`
(README.md:704-709). -/
def translationKeywords : List String :=
  ["translate", "translation", "say in", "how do you say"]

/-- `Executor.isTranslationRequest` (README.md:703-713). -/
def isTranslationRequest (text : String) : Bool :=
  translationKeywords.any (fun keyword => strIncludes (lowerStr text) keyword)

/-- `Executor.isStreamingRequest` (README.md:718-720). -/
def isStreamingRequest (text : String) : Bool :=
  strIncludes (lowerStr text) "stream"

/-- `Executor.isPushNotificationRequest` (README.md:725-727). -/
def isPushNotificationRequest (text : String) : Bool :=
  strIncludes (lowerStr text) "push notification"

/-- The seven intents of the dispatch chain in `Executor.handleTask`. -/
inductive Intent where
  | Greeting
  | Calculation
  | Weather
  | Translation
  | Streaming
  | PushNotification
  | General
deriving DecidableEq, Repr

/-- The dispatch order of the if/else chain in `Executor.handleTask`
(README.md:571-614): the first matching detector wins. -/
def classify (text : String) : Intent :=
  if isGreeting text then .Greeting
  else if isCalculation text then .Calculation
  else if isWeatherRequest text then .Weather
  else if isTranslationRequest text then .Translation
  else if isStreamingRequest text then .Streaming
  else if isPushNotificationRequest text then .PushNotification
  else .General

example : classify "Hello, calculate 2+2" = .Greeting := by decide
example : classify "Start streaming" = .Streaming := by decide
example : classify "Send me a push notification" = .PushNotification := by decide
example : classify "Calculate 15 * 7" = .Calculation := by decide

-- ===========================================================================
-- Data model (README.md type usage: TaskHandlerResult, status-update events)
-- ===========================================================================

/-- Task / status states used by the executor (README.md). -/
inductive TaskState where
  | submitted
  | working
  | completed
  | failed
deriving DecidableEq, Repr

/-- Metadata mapping attached to results and events, modelled with the keys
the claims inspect; the other keys of the source (`planId`,
`costDescription`, `expression`, `result`, `location`, ...) are elided. -/
structure Metadata where
  creditsUsed : Option Int := none
  operationType : Option String := none
  errorType : Option String := none
  completed : Option Bool := none
deriving DecidableEq, Repr

/-- Result returned by every task handler (README.md). Every handler produces
exactly one text part, modelled as `text`; the push-notification handler
returns no metadata, hence `Option Metadata`. -/
structure TaskHandlerResult where
  text : String
  metadata : Option Metadata := none
  state : TaskState
deriving DecidableEq, Repr

/-- An event published on the execution event bus: either the initial `Task`
object published by `Executor.execute` (README.md:1262) or a
`TaskStatusUpdateEvent` carrying the state, the text of the embedded agent
message, the `final` flag and the optional metadata. -/
inductive Event where
  | task (state : TaskState)
  | statusUpdate (state : TaskState) (msgText : String) (final : Bool)
      (metadata : Option Metadata)
deriving DecidableEq, Repr

/-- The `final` flag of a published event; the initial `Task` publication
carries no such flag. -/
def Event.isFinal : Event → Bool
  | .task _ => false
  | .statusUpdate _ _ f _ => f

/-- The metadata of a published event, when it is a status update. -/
def Event.metadataOf : Event → Option Metadata
  | .task _ => none
  | .statusUpdate _ _ _ md => md

-- ===========================================================================
-- Regex-replace machinery for the JS `String.replace(/.../i, "")` calls
-- ===========================================================================

/-- Case-insensitive keyword match at the head of the input: if the lowercase
keyword `kw` matches the (lowercased) head of `l`, return the rest. Models a
literal alternative inside a case-insensitive JS regex. -/
def dropCiKeyword : List Char → List Char → Option (List Char)
  | [], l => some l
  | _ :: _, [] => none
  | k :: ks, c :: cs => if c.toLower == k then dropCiKeyword ks cs else none

/-- Greedy `\s+`: requires at least one whitespace character and consumes the
maximal whitespace run (nothing after it in the patterns ever backtracks
into it). -/
def wsPlus : List Char → Option (List Char)
  | [] => none
  | c :: tl => if c.isWhitespace then some (tl.dropWhile Char.isWhitespace) else none

/-- First alternative that matches, in order — models ordered regex
alternation `(a|b|...)`. -/
def firstSome {α β : Type} (f : α → Option β) : List α → Option β
  | [] => none
  | x :: xs => match f x with
    | some y => some y
    | none => firstSome f xs

/-- Lazy `.*?` followed by the body `att`, attempted at one start position:
the body is tried first (lazy), and on failure the dot consumes one
non-newline character (JS `.` does not match a newline). Returns the rest of
the input after the whole match. -/
def attemptFrom (att : List Char → Option (List Char)) :
    List Char → Option (List Char)
  | [] => att []
  | l@(c :: tl) => match att l with
    | some r => some r
    | none => if c == '\n' then none else attemptFrom att tl

/-- JS `text.replace(re, "")` for a non-global regex `re = /.*?<att>/i`:
scan start positions left to right, keep the characters before the first
match, drop the matched span, keep the rest. If no start position matches,
the input is returned unchanged. -/
def replaceFirstAux (att : List Char → Option (List Char)) :
    List Char → List Char → List Char
  | acc, [] => match attemptFrom att [] with
    | some rest => acc.reverse ++ rest
    | none => acc.reverse
  | acc, l@(c :: tl) => match attemptFrom att l with
    | some rest => acc.reverse ++ rest
    | none => replaceFirstAux att (c :: acc) tl

-- ===========================================================================
-- Calculation handler: expression extraction (README.md:766-770)
-- ===========================================================================

/-- The alternatives of the trigger regex
`/(calculate|math|compute|solve|what is)\s+/i` (README.md:769). -/
def triggerKeywords : List (List Char) :=
  ["calculate".data, "math".data, "compute".data, "solve".data, "what is".data]

/-- Body of the trigger regex: one of the keywords followed by `\s+`. -/
def triggerBody (l : List Char) : Option (List Char) :=
  firstSome (fun kw => match dropCiKeyword kw l with
    | some r => wsPlus r
    | none => none) triggerKeywords

/-- Character class `[0-9+\-*Slash().]` kept by the second replace
(README.md:770): digits, the four operators, parentheses and the dot. -/
def keepExprChar (c : Char) : Bool :=
  c.isDigit || c == '+' || c == '-' || c == '*' || c == '/' ||
    c == '(' || c == ')' || c == '.'

/-- The `expression` local of `Executor.handleCalculation` (README.md:768-770):
strip the first `.*?(calculate|math|compute|solve|what is)\s+` match, then
discard every character outside `[0-9+\-*Slash().]`. -/
def extractExpression (userText : String) : String :=
  ⟨(replaceFirstAux triggerBody [] userText.data).filter keepExprChar⟩

example : extractExpression "Calculate 15 * 7" = "15*7" := by decide
example : extractExpression "Calculate " = "" := by decide
example : extractExpression "What is (25 + 15) * 2 / 4?" = "(25+15)*2/4" := by decide

-- ===========================================================================
-- Arithmetic evaluator: model of the JS `eval(expression)` call
-- ===========================================================================

/-- A JS number produced by the arithmetic evaluator: `fin n d` is the finite
value `n / d` (the fraction is kept unnormalized so that evaluation is
kernel-computable), `nonfin` collapses the non-finite JS results (Infinity,
-Infinity, NaN) that division by zero produces — JS division never throws. -/
inductive JNum where
  | fin (num : Int) (den : Int)
  | nonfin
deriving DecidableEq, Repr

def JNum.add : JNum → JNum → JNum
  | .fin a b, .fin c d => .fin (a * d + c * b) (b * d)
  | _, _ => .nonfin

def JNum.sub : JNum → JNum → JNum
  | .fin a b, .fin c d => .fin (a * d - c * b) (b * d)
  | _, _ => .nonfin

def JNum.mul : JNum → JNum → JNum
  | .fin a b, .fin c d => .fin (a * c) (b * d)
  | _, _ => .nonfin

/-- JS division: a finite value divided by zero yields a non-finite result
(Infinity or NaN), not an exception. -/
def JNum.div : JNum → JNum → JNum
  | .fin a b, .fin c d => if c == 0 then .nonfin else .fin (a * d) (b * c)
  | _, _ => .nonfin

def JNum.neg : JNum → JNum
  | .fin a b => .fin (-a) b
  | .nonfin => .nonfin

/-- Decimal digit run to a natural number. -/
def digitsToNat (l : List Char) : Nat :=
  l.foldl (fun n c => 10 * n + (c.toNat - 48)) 0

/-- JS numeric literal over the residual character set: `123`, `1.5`, `.5`
and `1.` are all accepted, a lone `.` is not. -/
def parseNumber (l : List Char) : Option (JNum × List Char) :=
  let ip := l.takeWhile Char.isDigit
  let r := l.drop ip.length
  match r with
  | '.' :: r2 =>
    let fp := r2.takeWhile Char.isDigit
    if ip.isEmpty && fp.isEmpty then none
    else
      some (.fin (digitsToNat ip * 10 ^ fp.length + digitsToNat fp) (10 ^ fp.length),
        r2.drop fp.length)
  | _ => if ip.isEmpty then none else some (.fin (digitsToNat ip) 1, r)

mutual

/-- Additive level of the expression grammar: `term (('+'|'-') term)*`. -/
def parseExpr : Nat → List Char → Option (JNum × List Char)
  | 0, _ => none
  | fuel + 1, l =>
    match parseTerm fuel l with
    | none => none
    | some (v, r) => parseExprOps fuel v r

/-- Left-associative fold of the `+` and `-` operators. -/
def parseExprOps : Nat → JNum → List Char → Option (JNum × List Char)
  | 0, _, _ => none
  | fuel + 1, v, l =>
    match l with
    | '+' :: r =>
      match parseTerm fuel r with
      | none => none
      | some (w, r2) => parseExprOps fuel (v.add w) r2
    | '-' :: r =>
      match parseTerm fuel r with
      | none => none
      | some (w, r2) => parseExprOps fuel (v.sub w) r2
    | _ => some (v, l)

/-- Multiplicative level: `factor (('*'|'/') factor)*`. -/
def parseTerm : Nat → List Char → Option (JNum × List Char)
  | 0, _ => none
  | fuel + 1, l =>
    match parseFactor fuel l with
    | none => none
    | some (v, r) => parseTermOps fuel v r

/-- Left-associative fold of the `*` and `/` operators. -/
def parseTermOps : Nat → JNum → List Char → Option (JNum × List Char)
  | 0, _, _ => none
  | fuel + 1, v, l =>
    match l with
    | '*' :: r =>
      match parseFactor fuel r with
      | none => none
      | some (w, r2) => parseTermOps fuel (v.mul w) r2
    | '/' :: r =>
      match parseFactor fuel r with
      | none => none
      | some (w, r2) => parseTermOps fuel (v.div w) r2
    | _ => some (v, l)

/-- Unary level: `('+'|'-')* primary`, a parenthesized expression or a
numeric literal. -/
def parseFactor : Nat → List Char → Option (JNum × List Char)
  | 0, _ => none
  | fuel + 1, l =>
    match l with
    | '+' :: r => parseFactor fuel r
    | '-' :: r =>
      match parseFactor fuel r with
      | none => none
      | some (v, r2) => some (v.neg, r2)
    | '(' :: r =>
      match parseExpr fuel r with
      | none => none
      | some (v, r2) =>
        match r2 with
        | ')' :: r3 => some (v, r3)
        | _ => none
    | _ => parseNumber l

end

/-- Models the JS `eval(expression)` call of `Executor.handleCalculation`
(README.md:790) on the residual character set `[0-9+\-*Slash().]`: a
constrained arithmetic evaluator. `.error` models a thrown exception
(SyntaxError / TypeError), `.ok` a successfully computed number. JS-specific
exotica on this character set (`**` exponentiation, legacy octal literals)
are outside the model. -/
def evalArith (s : String) : Except String JNum :=
  match parseExpr (3 * s.length + 3) s.data with
  | some (v, []) => .ok v
  | some (_, _ :: _) => .error "SyntaxError: unexpected trailing input"
  | none => .error "SyntaxError: invalid expression"

example : evalArith "15*7" = .ok (.fin 105 1) := by rfl
example : evalArith "(25+15)*2/4" = .ok (.fin 80 4) := by rfl
example : (evalArith "5++" ).isOk = false := by rfl
example : (evalArith "()").isOk = false := by rfl

-- ===========================================================================
-- Simple handlers: greeting, calculation, general (README.md:736-826, 1133)
-- ===========================================================================

/-- Rendering of the computed number inside the result text (`${result}` in
README.md:796). Exact for integer results — the only case a verified claim
exercises; non-integer and non-finite renderings approximate JS number
formatting. -/
def showJNum : JNum → String
  | .fin n d => if d != 0 && n % d == 0 then toString (n / d)
      else toString n ++ "/" ++ toString d
  | .nonfin => "Infinity"

/-- `Executor.handleCalculation` (README.md:766-826). The Lean function is
total: the JS try/catch around `eval` is modelled by the `Except` result of
`evalArith`, so no user-input error escapes the handler boundary. -/
def handleCalculation (userText : String) : TaskHandlerResult :=
  let expression := extractExpression userText
  if expression = "" then
    { text := "Error: Please provide a valid mathematical expression"
      metadata := some { creditsUsed := some 1, operationType := some "calculation_error" }
      state := .failed }
  else
    match evalArith expression with
    | .ok result =>
      { text := "📊 Calculation Result:\n" ++ expression ++ " = " ++ showJNum result
        metadata := some { creditsUsed := some 2, operationType := some "calculation" }
        state := .completed }
    | .error _ =>
      { text := "Error: Invalid mathematical expression"
        metadata := some { creditsUsed := some 1, operationType := some "calculation_error" }
        state := .failed }

/-- The capability-summary text appended after the echoed greeting
(README.md:744-750). -/
def greetingCapabilities : String :=
  "! I\u0027m your AI assistant with payment integration. I can help you with:\n" ++
  "• Greetings and information (1 credit)\n" ++
  "• Mathematical calculations (2 credits)\n" ++
  "• Weather information (3 credits)\n" ++
  "• Language translations (4 credits)\n" ++
  "• Streaming responses (5 credits)\n\n" ++
  "Just ask me anything!"

/-- `Executor.handleGreeting` (README.md:736-761): echoes the full user text
when it contains a greeting word, otherwise the default `"Hello"`, followed
by the static capability summary. -/
def handleGreeting (userText : String) : TaskHandlerResult :=
  let greeting := if isGreeting userText then userText else "Hello"
  { text := greeting ++ greetingCapabilities
    metadata := some { creditsUsed := some 1, operationType := some "greeting" }
    state := .completed }

/-- `Executor.handleGeneralRequest` (README.md:1133-1157). -/
def handleGeneralRequest (userText : String) : TaskHandlerResult :=
  { text :=
      "🤖 I received your request: \"" ++ userText ++ "\"\n\n" ++
      "I\u0027m an AI assistant with payment integration. Each operation costs different credits:\n" ++
      "• Greetings: 1 credit\n" ++
      "• Calculations: 2 credits\n" ++
      "• Weather: 3 credits\n" ++
      "• Translations: 4 credits\n" ++
      "• Streaming: 5 credits\n\n" ++
      "Try asking me to calculate something, get weather info, or translate text!"
    metadata := some { creditsUsed := some 1, operationType := some "general" }
    state := .completed }

example : (handleCalculation "Calculate 15 * 7").state = .completed := by decide
example : handleCalculation "Calculate 15 * 7" =
    { text := "📊 Calculation Result:\n15*7 = 105"
      metadata := some { creditsUsed := some 2, operationType := some "calculation" }
      state := .completed } := by decide
example : (handleCalculation "Calculate ").state = .failed := by decide

-- ===========================================================================
-- Weather handler (README.md:831-872, 1166-1190)
-- ===========================================================================

/-- Body of the location regex `weather\s+(?:in\s+)?` (README.md:833): the
literal `weather`, mandatory whitespace, then an optional `in` followed by
whitespace. -/
def weatherBody (l : List Char) : Option (List Char) :=
  match dropCiKeyword "weather".data l with
  | none => none
  | some r1 =>
    match wsPlus r1 with
    | none => none
    | some r2 =>
      match dropCiKeyword "in".data r2 with
      | none => some r2
      | some r3 =>
        match wsPlus r3 with
        | none => some r2
        | some r4 => some r4

/-- JS `String.prototype.trim` modelled per character. -/
def trimChars (l : List Char) : List Char :=
  ((l.dropWhile Char.isWhitespace).reverse.dropWhile Char.isWhitespace).reverse

/-- The `location` local of `Executor.handleWeatherRequest` (README.md:833):
strip the first `.*?weather\s+(?:in\s+)?` match, then trim. -/
def extractLocation (userText : String) : String :=
  ⟨trimChars (replaceFirstAux weatherBody [] userText.data)⟩

example : extractLocation "Weather in London" = "London" := by decide
example : extractLocation "weather" = "weather" := by decide

/-- The condition list of `Executor.simulateWeatherAPI` (README.md:1168-1175). -/
def weatherConditions : List String :=
  ["Sunny", "Cloudy", "Rainy", "Snowy", "Windy", "Partly Cloudy"]

/-- The weather report synthesized by `simulateWeatherAPI` (README.md:1182-1189);
the timestamp is elided. -/
structure WeatherData where
  description : String
  temperature : Int
  humidity : Int
  windSpeed : Int
deriving DecidableEq, Repr

/-- The four `Math.random()` draws of one `simulateWeatherAPI` call
(README.md:1176-1180), each in `[0,1)`. -/
structure RandDraws where
  r1 : ℚ
  r2 : ℚ
  r3 : ℚ
  r4 : ℚ
deriving DecidableEq, Repr

/-- `Executor.simulateWeatherAPI` (README.md:1166-1190): `Math.floor` over
exact `[0,1)` draws is the real floor. -/
def simulateWeatherAPI (rand : RandDraws) : WeatherData :=
  { description := weatherConditions.getD (Int.toNat ⌊rand.r1 * 6⌋) "Sunny"
    temperature := ⌊rand.r2 * 30⌋ + 5
    humidity := ⌊rand.r3 * 40⌋ + 30
    windSpeed := ⌊rand.r4 * 20⌋ + 5 }

/-- `Executor.handleWeatherRequest` (README.md:831-872). -/
def handleWeatherRequest (rand : RandDraws) (userText : String) : TaskHandlerResult :=
  let location := extractLocation userText
  if location = "" then
    { text := "Error: Please specify a location for weather information"
      metadata := some { creditsUsed := some 1, operationType := some "weather_error" }
      state := .failed }
  else
    let w := simulateWeatherAPI rand
    { text := "🌤️ Weather in " ++ location ++ ":\n" ++ w.description ++ ", " ++
        toString w.temperature ++ "°C\nHumidity: " ++ toString w.humidity ++
        "%\nWind: " ++ toString w.windSpeed ++ " km/h"
      metadata := some { creditsUsed := some 3, operationType := some "weather" }
      state := .completed }

-- ===========================================================================
-- Translation handler (README.md:877-921, 1195-1230)
-- ===========================================================================

/-- Word character class `\w` of the target-language capture. -/
def isWordChar (c : Char) : Bool :=
  c.isAlpha || c.isDigit || c == '_'

/-- Attempt of `translate\s+[quote]([^quotes]+)[quote]\s+to\s+(\w+)` at the
head of the input (README.md:879-881, quotes: single or double, matching or
not). Returns the two captures (quoted text, target language). Because the
content class excludes both quote characters, the greedy repetitions never
need to backtrack. -/
def translationAt (l : List Char) : Option (List Char × List Char) :=
  match dropCiKeyword "translate".data l with
  | none => none
  | some r1 =>
    match wsPlus r1 with
    | none => none
    | some r2 =>
      match r2 with
      | [] => none
      | q1 :: r3 =>
        if q1 == '\'' || q1 == '"' then
          let content := r3.takeWhile (fun c => !(c == '\'' || c == '"'))
          if content.isEmpty then none
          else
            match r3.drop content.length with
            | [] => none
            | q2 :: r4 =>
              if q2 == '\'' || q2 == '"' then
                match wsPlus r4 with
                | none => none
                | some r5 =>
                  match dropCiKeyword "to".data r5 with
                  | none => none
                  | some r6 =>
                    match wsPlus r6 with
                    | none => none
                    | some r7 =>
                      let lang := r7.takeWhile isWordChar
                      if lang.isEmpty then none else some (content, lang)
              else none
        else none

/-- JS `userText.match(re)` for the translation regex: attempt the pattern at
every start position, left to right. -/
def findTranslationMatch : List Char → Option (List Char × List Char)
  | [] => translationAt []
  | l@(_ :: tl) =>
    match translationAt l with
    | some m => some m
    | none => findTranslationMatch tl

/-- Spanish phrase table of `simulateTranslation` (README.md:1198-1204). -/
def spanishPhrases : List (String × String) :=
  [("hello", "hola"), ("goodbye", "adiós"), ("thank you", "gracias"),
   ("good morning", "buenos días"), ("how are you", "¿cómo estás?")]

/-- French phrase table of `simulateTranslation` (README.md:1205-1211). -/
def frenchPhrases : List (String × String) :=
  [("hello", "bonjour"), ("goodbye", "au revoir"), ("thank you", "merci"),
   ("good morning", "bonjour"), ("how are you", "comment allez-vous?")]

/-- German phrase table of `simulateTranslation` (README.md:1212-1218). -/
def germanPhrases : List (String × String) :=
  [("hello", "hallo"), ("goodbye", "auf wiedersehen"), ("thank you", "danke"),
   ("good morning", "guten morgen"), ("how are you", "wie geht es dir?")]

/-- The language-keyed phrase tables (README.md:1197-1219). -/
def translationTables : List (String × List (String × String)) :=
  [("spanish", spanishPhrases), ("french", frenchPhrases), ("german", germanPhrases)]

/-- `Executor.simulateTranslation` (README.md:1195-1230): table lookup keyed
by lowercased language and phrase, falling back to `text (language)`. -/
def simulateTranslation (text targetLanguage : String) : String :=
  let lang := lowerStr targetLanguage
  let lowerText := lowerStr text
  match (translationTables.lookup lang).bind (fun tbl => tbl.lookup lowerText) with
  | some translation => translation
  | none => text ++ " (" ++ targetLanguage ++ ")"

/-- `Executor.handleTranslationRequest` (README.md:877-921). -/
def handleTranslationRequest (userText : String) : TaskHandlerResult :=
  match findTranslationMatch userText.data with
  | none =>
    { text := "Error: Please use format: 'translate \"text\" to language'"
      metadata := some { creditsUsed := some 1, operationType := some "translation_error" }
      state := .failed }
  | some (textChars, langChars) =>
    let text : String := ⟨textChars⟩
    let targetLanguage : String := ⟨langChars⟩
    let translation := simulateTranslation text targetLanguage
    { text := "🌍 Translation:\n\"" ++ text ++ "\" → \"" ++ translation ++
        "\" (" ++ targetLanguage ++ ")"
      metadata := some { creditsUsed := some 4, operationType := some "translation" }
      state := .completed }

example : (handleTranslationRequest "Translate \"hello\" to Spanish").state
    = .completed := by decide
example : (handleTranslationRequest "Translate \"bonjour\"").state
    = .failed := by decide

-- ===========================================================================
-- Streaming and push-notification handlers (README.md:930-1128)
-- ===========================================================================

/-- One non-final streaming progress event of the loop in
`Executor.handleStreamingRequest` (README.md:941-968): state `working`,
text `Streaming message i/10`. -/
def streamEvent (i : Nat) : Event :=
  .statusUpdate .working ("Streaming message " ++ toString i ++ "/10") false none

/-- The eleventh non-final event of the streaming handler, published after
the loop (README.md:971-993). -/
def streamFinishedEvent : Event :=
  .statusUpdate .working "Streaming finished!" false none

/-- The result returned by `Executor.handleStreamingRequest` after the loop
(README.md:995-1010). -/
def streamingResult : TaskHandlerResult :=
  { text := "🚀 Streaming started! You will receive 60 messages via SSE (one per second).\nCheck your /message/stream subscription."
    metadata := some { creditsUsed := some 5, operationType := some "streaming" }
    state := .completed }

/-- Events published synchronously by `Executor.handleStreamingRequest`
(README.md:930-1011): ten progress events for i = 1..10 in increasing
order, then the `Streaming finished!` event; all carry `final: false`. -/
def streamingEvents : List Event :=
  (List.range' 1 10).map streamEvent ++ [streamFinishedEvent]

/-- The non-final `working` event published synchronously by
`Executor.handlePushNotificationRequest` (README.md:1031-1053). -/
def pushWorkingEvent : Event :=
  .statusUpdate .working
    "Push notification request received. Waiting for pushNotificationConfig..."
    false none

/-- The result returned immediately by `handlePushNotificationRequest`
(README.md:1059-1067): `working` state and no metadata. -/
def pushWorkingResult : TaskHandlerResult :=
  { text := "Push notification request received. Waiting for pushNotificationConfig..."
    metadata := none
    state := .working }

/-- The single event published by the background continuation
`Executor.finalizePushNotificationTask` after the simulated wait for the
push configuration (README.md:1087-1117): `final: true`, state `completed`,
metadata with `creditsUsed: 5`. -/
def pushFinalEvent : Event :=
  .statusUpdate .completed "Push notification task completed!" true
    (some { creditsUsed := some 5, operationType := some "push_notification",
            completed := some true })

-- ===========================================================================
-- Executor (README.md:559-639, 1237-1326)
-- ===========================================================================

/-- Outcome of `Executor.handleTask` (README.md:559-639): the synchronous
events the invoked handler published on the bus, its result, the
`expectsMoreUpdates` flag, and the events a launched background continuation
will publish later (non-empty only for the push-notification intent, whose
continuation fires after a 10 s timer, hence after all synchronous events of
the single-threaded process). The catch block of `handleTask`
(README.md:615-638) is unreachable in the model because every handler is a
total function. -/
structure HandlerOutcome where
  events : List Event
  result : TaskHandlerResult
  expectsMoreUpdates : Bool
  background : List Event
deriving DecidableEq, Repr

/-- Outcome of a handler that publishes nothing itself and expects no more
updates (greeting, calculation, weather, translation, general). -/
def simpleOutcome (r : TaskHandlerResult) : HandlerOutcome :=
  ⟨[], r, false, []⟩

/-- `Executor.handleTask` (README.md:559-639), dispatching on the detectors
in the source's if/else priority order (factored through `classify`). -/
def handleTask (rand : RandDraws) (userText : String) : HandlerOutcome :=
  match classify userText with
  | .Greeting => simpleOutcome (handleGreeting userText)
  | .Calculation => simpleOutcome (handleCalculation userText)
  | .Weather => simpleOutcome (handleWeatherRequest rand userText)
  | .Translation => simpleOutcome (handleTranslationRequest userText)
  | .Streaming => ⟨streamingEvents, streamingResult, false, []⟩
  | .PushNotification => ⟨[pushWorkingEvent], pushWorkingResult, true, [pushFinalEvent]⟩
  | .General => simpleOutcome (handleGeneralRequest userText)

/-- The final status-update event `Executor.execute` synthesizes from the
handler result (README.md:1275-1294): `final: true`, the result's state
(every handler sets a state, so the `result.state || "completed"` fallback
of the source never fires), the result's single text part as embedded agent
message, and the result's metadata. -/
def finalUpdate (result : TaskHandlerResult) : Event :=
  .statusUpdate result.state result.text true result.metadata

/-- `Executor.execute`, normal path (README.md:1237-1295): publish the task
(freshly constructed in `submitted` state when the request carries none),
run `handleTask`, then — unless more updates are expected — publish the
final status-update event. The push-notification background events are
published last. -/
def execute (rand : RandDraws) (existingTask : Option TaskState)
    (userText : String) : List Event :=
  let o := handleTask rand userText
  Event.task (existingTask.getD .submitted) ::
    (o.events ++ (if o.expectsMoreUpdates then [] else [finalUpdate o.result])
      ++ o.background)

/-- Events published inside the try block of `execute` before the final
publish: the task publication followed by the handler's synchronous events. -/
def preFinalEvents (rand : RandDraws) (existingTask : Option TaskState)
    (userText : String) : List Event :=
  Event.task (existingTask.getD .submitted) :: (handleTask rand userText).events

/-- The `final: true` error event built by the outer catch of
`Executor.execute` (README.md:1297-1322): state `failed`, text
`Agent error: ...`, metadata holding only `errorType: "agent_error"` — in
particular no `creditsUsed` key. -/
def agentErrorUpdate (errMsg : String) : Event :=
  .statusUpdate .failed ("Agent error: " ++ errMsg) true
    (some { errorType := some "agent_error" })

/-- `Executor.execute`, outer error path (README.md:1296-1325): an exception
interrupts the try block after `k` of its events were published (the try
block's own publications all precede the final publish), and the catch
publishes the error event last. -/
def executeErrorPath (rand : RandDraws) (existingTask : Option TaskState)
    (userText : String) (k : Nat) (errMsg : String) : List Event :=
  (preFinalEvents rand existingTask userText).take k ++ [agentErrorUpdate errMsg]

-- ===========================================================================
-- Trace checkers for the published-event invariants
-- ===========================================================================

/-- Is the last event of a trace final? (`false` on the empty trace.) -/
def lastIsFinal : List Event → Bool
  | [] => false
  | [e] => e.isFinal
  | _ :: e :: tl => lastIsFinal (e :: tl)

/-- The terminal-event invariant of one trace: exactly one `final: true`
event is published, and it is the last event published. -/
def finalIsLastOnce (t : List Event) : Bool :=
  t.countP Event.isFinal == 1 && lastIsFinal t

/-- The credits contract on one event: a `final: true` event whose metadata
is present must bind `creditsUsed` to an integer ≥ 1. -/
def finalCreditsOk (e : Event) : Bool :=
  if e.isFinal then
    match e.metadataOf with
    | none => true
    | some m =>
      match m.creditsUsed with
      | some c => decide (1 ≤ c)
      | none => false
  else true

example : finalIsLastOnce (execute ⟨0, 0, 0, 0⟩ none "Hello") = true := by decide
example : finalIsLastOnce (execute ⟨0, 0, 0, 0⟩ none "Start streaming") = true := by decide
example : finalIsLastOnce (execute ⟨0, 0, 0, 0⟩ none "Send me a push notification") = true := by decide
example : (execute ⟨0, 0, 0, 0⟩ none "Start streaming").length = 13 := by decide
example : (executeErrorPath ⟨0, 0, 0, 0⟩ none "Hello" 1 "boom").all finalCreditsOk = false := by decide
example : (execute ⟨0, 0, 0, 0⟩ none "Weather in London").all finalCreditsOk = true := by decide

-- ===========================================================================
-- Transport client header construction (src/client.ts)
-- ===========================================================================

/-- The base headers of every JSON-RPC request of `TestAgentClient`
(client.ts:132-133, 189-190, 262-263). -/
def contentTypeHeader : String × String := ("Content-Type", "application/json")

/-- The `if (bearerToken) headers["Authorization"] = "Bearer " + bearerToken`
pattern shared by the three operations: the header is attached only when the
optional token is JS-truthy, i.e. present and not the empty string. -/
def requestHeaders (bearerToken : Option String) : List (String × String) :=
  [contentTypeHeader] ++
    (match bearerToken with
     | some t => if t = "" then [] else [("Authorization", "Bearer " ++ t)]
     | none => [])

/-- Headers of `TestAgentClient.sendMessage` (client.ts:132-135). -/
def sendMessageHeaders (bearerToken : Option String) : List (String × String) :=
  requestHeaders bearerToken

/-- Headers of `TestAgentClient.sendStreamingMessage` (client.ts:189-192). -/
def sendStreamingMessageHeaders (bearerToken : Option String) :
    List (String × String) :=
  requestHeaders bearerToken

/-- Headers of `TestAgentClient.setPushNotificationConfig`
(client.ts:262-265). -/
def setPushNotificationConfigHeaders (bearerToken : Option String) :
    List (String × String) :=
  requestHeaders bearerToken

-- ===========================================================================
-- Helper lemmas
-- ===========================================================================

theorem finalCreditsOk_task (s : TaskState) : finalCreditsOk (Event.task s) = true := rfl

theorem lastIsFinal_append_single (xs : List Event) (e : Event) :
    lastIsFinal (xs ++ [e]) = e.isFinal := by
  induction xs with
  | nil => rfl
  | cons a tl ih =>
    cases tl with
    | nil => rfl
    | cons b tl2 => exact ih

/-- No event published before the final publish of `execute` is final:
the task publication and all handler-internal events carry `final: false`. -/
theorem preFinalEvents_countP (rand : RandDraws) (et : Option TaskState)
    (text : String) :
    (preFinalEvents rand et text).countP Event.isFinal = 0 := by
  unfold preFinalEvents handleTask
  cases h : classify text <;> rfl

theorem handleCalculation_creditsOk (text : String) :
    finalCreditsOk (finalUpdate (handleCalculation text)) = true := by
  simp only [handleCalculation]
  split
  · rfl
  · split <;> rfl

theorem handleWeatherRequest_creditsOk (rand : RandDraws) (text : String) :
    finalCreditsOk (finalUpdate (handleWeatherRequest rand text)) = true := by
  simp only [handleWeatherRequest]
  split <;> rfl

theorem handleTranslationRequest_creditsOk (text : String) :
    finalCreditsOk (finalUpdate (handleTranslationRequest text)) = true := by
  simp only [handleTranslationRequest]
  split <;> rfl

-- ===========================================================================
-- Claim theorems
-- ===========================================================================

/-- C1 (amended): on the normal executor path — every input, every intent,
including the streaming path and the push-notification background
finalization, whose events all appear in the trace — every published
`final: true` event whose metadata is present binds `creditsUsed` to an
integer ≥ 1. (The outer error path violates the original claim; see the
counterexample.) -/
theorem execute_final_metadata_credits_ge_one (rand : RandDraws)
    (et : Option TaskState) (text : String) :
    (execute rand et text).all finalCreditsOk = true := by
  unfold execute handleTask
  cases h : classify text
  case Greeting => rfl
  case Calculation =>
    have hc := handleCalculation_creditsOk text
    simp [simpleOutcome, finalCreditsOk_task, hc]
  case Weather =>
    have hc := handleWeatherRequest_creditsOk rand text
    simp [simpleOutcome, finalCreditsOk_task, hc]
  case Translation =>
    have hc := handleTranslationRequest_creditsOk text
    simp [simpleOutcome, finalCreditsOk_task, hc]
  case Streaming => rfl
  case PushNotification => rfl
  case General => rfl

/-- C1 counterexample: on the outer error path the claim fails — the
`final: true` error event has its metadata present (it holds
`errorType: "agent_error"`), yet that metadata binds no `creditsUsed` at
all, so the trace violates the credits contract at a concrete input. -/
theorem agent_error_final_event_lacks_credits :
    (executeErrorPath ⟨0, 0, 0, 0⟩ none "Hello" 1 "boom").all finalCreditsOk = false ∧
    (agentErrorUpdate "boom").isFinal = true ∧
    (agentErrorUpdate "boom").metadataOf =
      some { errorType := some "agent_error" } ∧
    ((agentErrorUpdate "boom").metadataOf.map Metadata.creditsUsed) = some none := by
  refine ⟨by decide, rfl, rfl, rfl⟩

/-- C2: for every input (hence every intent: the synchronous handlers, the
streaming path and the push-notification path) and also on the outer
exception path — modelled as an exception interrupting the try block after
any number `k` of its events — the trace of published events contains
exactly one `final: true` event, and it is the last event published. -/
theorem exactly_one_final_event_and_last (rand : RandDraws)
    (et : Option TaskState) (text : String) (k : Nat) (errMsg : String) :
    finalIsLastOnce (execute rand et text) = true ∧
    finalIsLastOnce (executeErrorPath rand et text k errMsg) = true := by
  constructor
  · unfold execute handleTask
    cases h : classify text <;> rfl
  · have h0 := preFinalEvents_countP rand et text
    have h2 := (List.take_sublist k (preFinalEvents rand et text)).countP_le Event.isFinal
    have h1 : ((preFinalEvents rand et text).take k).countP Event.isFinal = 0 := by omega
    unfold finalIsLastOnce executeErrorPath
    rw [List.countP_append, h1, lastIsFinal_append_single]
    rfl

/-- C3: for every streaming-intent input, the trace is the task publication
followed by exactly ten non-final progress events `Streaming message i/10`
for i = 1..10 in increasing order, one more non-final event announcing
stream completion, and exactly one `final: true` event embedding the
handler's completed result — with no events after it. -/
theorem streaming_trace_events (rand : RandDraws) (et : Option TaskState)
    (text : String) (h : classify text = .Streaming) :
    execute rand et text =
      Event.task (et.getD .submitted) ::
        ((List.range' 1 10).map streamEvent ++
          [streamFinishedEvent, finalUpdate streamingResult]) ∧
    (∀ i : Nat, streamEvent i =
      Event.statusUpdate .working ("Streaming message " ++ toString i ++ "/10")
        false none) ∧
    streamFinishedEvent.isFinal = false ∧
    finalUpdate streamingResult =
      Event.statusUpdate .completed streamingResult.text true
        (some { creditsUsed := some 5, operationType := some "streaming" }) ∧
    streamingResult.state = .completed := by
  refine ⟨?_, fun i => rfl, rfl, rfl, rfl⟩
  unfold execute handleTask
  rw [h]
  simp [streamingEvents]

theorem streaming_trace_events_witness :
    classify "Start streaming" = .Streaming ∧
    execute ⟨0, 0, 0, 0⟩ none "Start streaming" =
      Event.task .submitted ::
        ((List.range' 1 10).map streamEvent ++
          [streamFinishedEvent, finalUpdate streamingResult]) :=
  ⟨by decide, (streaming_trace_events ⟨0, 0, 0, 0⟩ none "Start streaming" (by decide)).1⟩

/-- C4: for every push-notification-intent input, the handler's returned
result has state `working`, the executor publishes no final event on the
synchronous path (`expectsMoreUpdates` is true and the handler's own events
contain no final one), and the whole trace ends with exactly the one
asynchronous `final: true` event of the background finalization — state
`completed`, metadata `creditsUsed = 5` — published exactly once. -/
theorem push_notification_flow (rand : RandDraws) (et : Option TaskState)
    (text : String) (h : classify text = .PushNotification) :
    (handleTask rand text).result.state = .working ∧
    (handleTask rand text).expectsMoreUpdates = true ∧
    (handleTask rand text).events.countP Event.isFinal = 0 ∧
    execute rand et text =
      [Event.task (et.getD .submitted), pushWorkingEvent, pushFinalEvent] ∧
    pushFinalEvent =
      Event.statusUpdate .completed "Push notification task completed!" true
        (some { creditsUsed := some 5, operationType := some "push_notification",
                completed := some true }) := by
  unfold execute handleTask
  rw [h]
  exact ⟨rfl, rfl, rfl, rfl, rfl⟩

theorem push_notification_flow_witness :
    classify "Send me a push notification" = .PushNotification ∧
    execute ⟨0, 0, 0, 0⟩ none "Send me a push notification" =
      [Event.task .submitted, pushWorkingEvent, pushFinalEvent] :=
  ⟨by decide,
    (push_notification_flow ⟨0, 0, 0, 0⟩ none "Send me a push notification"
      (by decide)).2.2.2.1⟩

/-- C5 counterexample: the claim states the residual expression for
`"Calculate 15 * 7"` is `"15 * 7"`; the second replace also discards the
space characters (space is neither numeric nor an operator character), so
the code's expression is `"15*7"`, not `"15 * 7"`. -/
theorem calculation_expression_drops_spaces :
    extractExpression "Calculate 15 * 7" = "15*7" ∧
    extractExpression "Calculate 15 * 7" ≠ "15 * 7" := by
  refine ⟨by decide, by decide⟩

/-- C5 (amended): for the input `"Calculate 15 * 7"` the handler strips the
leading trigger phrase and discards non-numeric/non-operator characters —
including the spaces — leaving the expression `"15*7"`, evaluates it to 105,
and returns a completed result with `creditsUsed = 2`. -/
theorem calculation_fifteen_times_seven :
    extractExpression "Calculate 15 * 7" = "15*7" ∧
    evalArith "15*7" = .ok (.fin 105 1) ∧
    handleCalculation "Calculate 15 * 7" =
      { text := "📊 Calculation Result:\n15*7 = 105"
        metadata := some { creditsUsed := some 2, operationType := some "calculation" }
        state := .completed } := by
  refine ⟨by decide, rfl, by decide⟩

/-- C6: for every calculation-intent input, if the residual expression after
stripping is empty, or evaluating it throws, the handler returns a result
with state `failed`, `creditsUsed = 1` and one of the two descriptive error
messages. (The handler is a total function of the input — the JS try/catch
is modelled by `evalArith`'s `Except` result — so these user-input errors
never propagate past the handler boundary.) -/
theorem calculation_user_errors_failed_one_credit (text : String)
    (_hc : classify text = .Calculation)
    (h : extractExpression text = "" ∨
      ∃ msg, evalArith (extractExpression text) = .error msg) :
    (handleCalculation text).state = .failed ∧
    (handleCalculation text).metadata =
      some { creditsUsed := some 1, operationType := some "calculation_error" } ∧
    ((handleCalculation text).text = "Error: Please provide a valid mathematical expression" ∨
     (handleCalculation text).text = "Error: Invalid mathematical expression") := by
  simp only [handleCalculation]
  by_cases he : extractExpression text = ""
  · simp [he]
  · rw [if_neg he]
    rcases h with h | ⟨msg, hm⟩
    · exact absurd h he
    · rw [hm]
      exact ⟨rfl, rfl, Or.inr rfl⟩

theorem calculation_user_errors_witness :
    classify "Calculate " = .Calculation ∧
    extractExpression "Calculate " = "" ∧
    (handleCalculation "Calculate ").state = .failed ∧
    (handleCalculation "Calculate ").metadata =
      some { creditsUsed := some 1, operationType := some "calculation_error" } :=
  ⟨by decide, by decide,
    (calculation_user_errors_failed_one_credit "Calculate " (by decide)
      (Or.inl (by decide))).1,
    (calculation_user_errors_failed_one_credit "Calculate " (by decide)
      (Or.inl (by decide))).2.1⟩

/-- C7: every input containing both a greeting word and a math keyword
classifies as Greeting — the dispatch chain evaluates the detectors in the
fixed order Greeting, Calculation, Weather, Translation, Streaming,
PushNotification, General, and the first match wins, so the greeting rule
shadows the calculation rule. -/
theorem greeting_priority_over_calculation (text : String)
    (hg : isGreeting text = true) (_hm : isCalculation text = true) :
    classify text = .Greeting := by
  simp [classify, hg]

theorem greeting_priority_witness :
    isGreeting "Hello, calculate 2+2" = true ∧
    isCalculation "Hello, calculate 2+2" = true ∧
    classify "Hello, calculate 2+2" = .Greeting :=
  ⟨by decide, by decide,
    greeting_priority_over_calculation "Hello, calculate 2+2" (by decide) (by decide)⟩

/-- C8: for every greeting-intent input the greeting handler returns a
completed result with `creditsUsed = 1` whose text is the input — which
contains the detected greeting word, so the greeting is echoed — followed
by the static capability summary. -/
theorem greeting_handler_echo_completed_one_credit (text : String)
    (h : isGreeting text = true) :
    handleGreeting text =
      { text := text ++ greetingCapabilities
        metadata := some { creditsUsed := some 1, operationType := some "greeting" }
        state := .completed } := by
  simp [handleGreeting, h]

theorem greeting_handler_witness :
    isGreeting "Hello" = true ∧
    handleGreeting "Hello" =
      { text := "Hello" ++ greetingCapabilities
        metadata := some { creditsUsed := some 1, operationType := some "greeting" }
        state := .completed } :=
  ⟨by decide, greeting_handler_echo_completed_one_credit "Hello" (by decide)⟩

/-- C9: calling `sendMessage`, `sendStreamingMessage` or
`setPushNotificationConfig` with the empty string as bearer token attaches
no `Authorization` header — the empty string is JS-falsy, so it is treated
exactly like an absent token, and only the `Content-Type` header is sent. -/
theorem empty_bearer_token_no_authorization_header :
    sendMessageHeaders (some "") = sendMessageHeaders none ∧
    sendStreamingMessageHeaders (some "") = sendStreamingMessageHeaders none ∧
    setPushNotificationConfigHeaders (some "") = setPushNotificationConfigHeaders none ∧
    (∀ p ∈ sendMessageHeaders (some ""), p.1 ≠ "Authorization") ∧
    (∀ p ∈ sendStreamingMessageHeaders (some ""), p.1 ≠ "Authorization") ∧
    (∀ p ∈ setPushNotificationConfigHeaders (some ""), p.1 ≠ "Authorization") := by
  refine ⟨rfl, rfl, rfl, ?_, ?_, ?_⟩ <;> decide

/-- Bounds for the floor of a `[0,1)` draw scaled by a positive constant. -/
theorem floor_scale_bounds (r c : ℚ) (b : Int) (hb : (b : ℚ) = c)
    (hbpos : 0 < b) (h0 : 0 ≤ r) (h1 : r < 1) :
    0 ≤ ⌊r * c⌋ ∧ ⌊r * c⌋ ≤ b - 1 := by
  subst hb
  constructor
  · refine Int.floor_nonneg.mpr (mul_nonneg h0 ?_)
    exact_mod_cast hbpos.le
  · have hlt : r * (b : ℚ) < (b : ℚ) := by
      have hb' : (0 : ℚ) < (b : ℚ) := by exact_mod_cast hbpos
      calc r * (b : ℚ) < 1 * (b : ℚ) := mul_lt_mul_of_pos_right h1 hb'
        _ = (b : ℚ) := one_mul _
    have := Int.floor_lt.mpr hlt
    omega

/-- C10: for all random draws in `[0,1)`, `simulateWeatherAPI` produces an
integer temperature in `[5,34]`, an integer humidity in `[30,69]` and an
integer wind speed in `[5,24]` — the upper endpoints 35 °C, 70 % and
25 km/h are never produced (`Math.floor(random()*n)` is at most `n-1`). -/
theorem simulateWeatherAPI_bounds (rand : RandDraws)
    (h2a : 0 ≤ rand.r2) (h2b : rand.r2 < 1)
    (h3a : 0 ≤ rand.r3) (h3b : rand.r3 < 1)
    (h4a : 0 ≤ rand.r4) (h4b : rand.r4 < 1) :
    (5 ≤ (simulateWeatherAPI rand).temperature ∧
      (simulateWeatherAPI rand).temperature ≤ 34) ∧
    (30 ≤ (simulateWeatherAPI rand).humidity ∧
      (simulateWeatherAPI rand).humidity ≤ 69) ∧
    (5 ≤ (simulateWeatherAPI rand).windSpeed ∧
      (simulateWeatherAPI rand).windSpeed ≤ 24) := by
  obtain ⟨t1, t2⟩ := floor_scale_bounds rand.r2 30 30 (by norm_num) (by norm_num) h2a h2b
  obtain ⟨u1, u2⟩ := floor_scale_bounds rand.r3 40 40 (by norm_num) (by norm_num) h3a h3b
  obtain ⟨v1, v2⟩ := floor_scale_bounds rand.r4 20 20 (by norm_num) (by norm_num) h4a h4b
  simp only [simulateWeatherAPI]
  omega

theorem simulateWeatherAPI_bounds_witness :
    ((0 : ℚ) ≤ 0 ∧ (0 : ℚ) < 1) ∧
    (5 ≤ (simulateWeatherAPI ⟨0, 0, 0, 0⟩).temperature ∧
      (simulateWeatherAPI ⟨0, 0, 0, 0⟩).temperature ≤ 34) ∧
    (30 ≤ (simulateWeatherAPI ⟨0, 0, 0, 0⟩).humidity ∧
      (simulateWeatherAPI ⟨0, 0, 0, 0⟩).humidity ≤ 69) ∧
    (5 ≤ (simulateWeatherAPI ⟨0, 0, 0, 0⟩).windSpeed ∧
      (simulateWeatherAPI ⟨0, 0, 0, 0⟩).windSpeed ≤ 24) :=
  ⟨⟨by decide, by decide⟩,
    simulateWeatherAPI_bounds ⟨0, 0, 0, 0⟩ (by decide) (by decide) (by decide)
      (by decide) (by decide) (by decide)⟩
